import Mathlib

/-!
# The blog page loader `src/routes/blog/[slug]/+page.js`

A shallow embedding of the `load` function of the blog route and of the part
of the JavaScript semantics it relies on: values, property reads, object
destructuring, identifier resolution along the scope chain, function calls,
the dynamic `import()` of a markdown module and the resolution of its promise
(a module namespace with a callable `then` export is a thenable),
`console.log`, and `try`/`catch`.

The asynchronous function is modelled by what becomes of the promise it
returns: `some (Except.ok v)` is a promise fulfilled with `v`,
`some (Except.error e)` a promise rejected with `e` (inside the function body,
a `throw`), and `none` a promise that is never settled.

Code that is not part of the loader (the evaluation of an imported module, the
body of a function object) is modelled by what it produces, a value or a thrown
value, and by what it does to the `memory` it keeps between calls. The
`World` records, next to that memory, what the loader itself does: the values
it writes with `console.log`, the modules it requests and the call expressions
it evaluates.
-/

set_option autoImplicit false

namespace BlogSlug

/-! ## JavaScript values -/

/-- The JavaScript values the loader can meet. Function objects are named by
an identifier; what a call of one does is given by a `FunctionTable`.
`error name message` is an instance of `Error` or of one of its native
subclasses (it is not callable). Objects are plain: their properties are data
properties, read without running code. -/
inductive JSValue where
  | undefined
  | null
  | bool (b : Bool)
  | num (n : Int)
  | str (s : String)
  | object (props : List (String × JSValue))
  | error (name : String) (message : String)
  | function (id : Nat)

namespace JSValue

/-- The test `IsCallable` of the language specification: only function objects. -/
def isCallable : JSValue → Bool
  | function _ => true
  | _ => false

/-- The values that cannot be converted to an object. -/
def isNullish : JSValue → Bool
  | undefined => true
  | null => true
  | _ => false

/-- The words an engine uses for a nullish value in its messages. -/
def nullishName : JSValue → String
  | null => "null"
  | _ => "undefined"

end JSValue

open JSValue

/-- Reading property `key` of a value that is not nullish: an own property of
an object, `name` and `message` of an error instance, and `undefined` for a
property the value does not have. -/
def getProp (v : JSValue) (key : String) : JSValue :=
  match v with
  | .object props => (props.lookup key).getD .undefined
  | .error name message =>
      if key = "name" then .str name
      else if key = "message" then .str message
      else .undefined
  | _ => .undefined

/-- The property names of a value, in insertion order. -/
def ownKeys : JSValue → List String
  | .object props => props.map Prod.fst
  | _ => []

/-- A native `TypeError` instance. -/
def typeError (message : String) : JSValue := .error "TypeError" message

/-- A native `ReferenceError` instance. -/
def referenceError (ident : String) : JSValue :=
  .error "ReferenceError" (ident ++ " is not defined")

/-- The member expression `base.key`: reading a property of `undefined` or
`null` throws a `TypeError`. -/
def readProperty (base : JSValue) (key : String) : Except JSValue JSValue :=
  if base.isNullish then
    .error (typeError ("Cannot read properties of " ++ base.nullishName ++
      " (reading '" ++ key ++ "')"))
  else
    .ok (getProp base key)

/-! ## Scopes, functions, the content store, the console -/

/-- A scope chain: innermost binding first. -/
abbrev Scope := List (String × JSValue)

/-- Resolution of an identifier reference: the innermost binding wins. -/
def resolveIdent (scope : Scope) (ident : String) : Except JSValue JSValue :=
  match scope.lookup ident with
  | some v => .ok v
  | none => .error (referenceError ident)

/-- The state that code outside the loader keeps between calls: named cells. -/
abbrev Memory := List (String × JSValue)

/-- What the function objects do. -/
structure FunctionTable where
  /-- The call of function object `id` on an argument list, in a memory: a
  returned value or a thrown one, and the memory the call leaves. -/
  call : Nat → List JSValue → Memory → Except JSValue JSValue × Memory
  /-- What becomes of a promise that is resolved with the thenable `thenable`
  whose `then` is function object `id`: the promise machinery calls `then` on
  its two resolving functions, and the promise ends fulfilled, rejected, or is
  never settled (`none`); the memory is the one the call leaves. -/
  settle : Nat → JSValue → Memory → Option (Except JSValue JSValue) × Memory

/-- The content store behind `import()`: a module specifier either resolves to
a module namespace (its exports) or the import is rejected with a value. -/
abbrev ContentStore := String → Except JSValue (List (String × JSValue))

/-- The observable state around a run of the loader. -/
structure World where
  /-- The values written with `console.log`, oldest first. -/
  log : List JSValue
  /-- The module specifiers requested with `import()`, oldest first. -/
  imports : List String
  /-- The call expressions evaluated: callee and arguments, oldest first. -/
  calls : List (JSValue × List JSValue)
  /-- The state of the code outside the loader. -/
  memory : Memory

/-- The call `console.log(v)`. -/
def consoleLog (v : JSValue) (w : World) : World :=
  { w with log := w.log ++ [v] }

/-- The resolve function of a promise, called on `resolution`: an object with a
callable `then` is a thenable and the promise follows it, any other value
fulfils the promise. -/
def resolvePromise (fns : FunctionTable) (resolution : JSValue) (w : World) :
    Option (Except JSValue JSValue) × World :=
  match getProp resolution "then" with
  | .function id =>
      let settled := fns.settle id resolution w.memory
      (settled.1, { w with memory := settled.2 })
  | _ => (some (.ok resolution), w)

/-- The expression `await import(specifier)`: the promise of the import is
rejected with what the content store fails with, or resolved with the module
namespace; the `await` continues with what the promise settles to. -/
def dynamicImport (fns : FunctionTable) (store : ContentStore) (specifier : String)
    (w : World) : Option (Except JSValue JSValue) × World :=
  let w1 := { w with imports := w.imports ++ [specifier] }
  match store specifier with
  | .ok exports => resolvePromise fns (.object exports) w1
  | .error e => (some (.error e), w1)

/-- The call expression `callee(args)` where `callee` was written as the
identifier `ident`: a value that is not callable gives a `TypeError`. -/
def callValue (fns : FunctionTable) (ident : String) (callee : JSValue)
    (args : List JSValue) (w : World) : Except JSValue JSValue × World :=
  match callee with
  | .function id =>
      let called := fns.call id args w.memory
      (called.1, { w with calls := w.calls ++ [(callee, args)], memory := called.2 })
  | _ => (.error (typeError (ident ++ " is not a function")), w)

/-- The destructuring `const { title, date } = source`, where `source` was
written as the expression `text`. -/
def destructureTitleDate (text : String) (source : JSValue) :
    Except JSValue (JSValue × JSValue) :=
  if source.isNullish then
    .error (typeError ("Cannot destructure property 'title' of '" ++ text ++
      "' as it is " ++ source.nullishName ++ "."))
  else
    .ok (getProp source "title", getProp source "date")

/-! ## The loader -/

/-- The route parameters. -/
structure Params where
  slug : String

/-- The argument of `load`. -/
structure LoadEvent where
  params : Params

/-- The module scope of `+page.js`: the import binding `error`. -/
def moduleScope (kitError : JSValue) : Scope := [("error", kitError)]

/-- The scope of the `catch (error)` block: the catch parameter, in front of
the enclosing scope. -/
def catchScope (kitError : JSValue) (caught : JSValue) : Scope :=
  ("error", caught) :: moduleScope kitError

/-- The specifier built by the template literal. -/
def specifierOf (slug : String) : String := "../" ++ slug ++ ".md"

/-- The statements of the `try` block after the `await`, run with the value
bound to `post`: the two destructured fields, the content, the returned
record. -/
def buildResult (post : JSValue) : Except JSValue JSValue :=
  match readProperty post "metadata" with
  | .error e => .error e
  | .ok metadata =>
      match destructureTitleDate "post.metadata" metadata with
      | .error e => .error e
      | .ok (title, date) =>
          match readProperty post "default" with
          | .error e => .error e
          | .ok content =>
              .ok (.object [("content", content), ("title", title), ("date", date)])

/-- The `try` block of `load`: `none` when the awaited promise is never
settled. -/
def tryBlock (fns : FunctionTable) (store : ContentStore) (event : LoadEvent)
    (w : World) : Option (Except JSValue JSValue) × World :=
  match dynamicImport fns store (specifierOf event.params.slug) w with
  | (none, w1) => (none, w1)
  | (some (.error e), w1) => (some (.error e), w1)
  | (some (.ok post), w1) => (some (buildResult post), w1)

/-- The `catch (error)` block of `load`, entered with the caught value. -/
def catchBlock (fns : FunctionTable) (kitError : JSValue) (caught : JSValue)
    (w : World) : Except JSValue JSValue × World :=
  let scope := catchScope kitError caught
  match resolveIdent scope "error" with
  | .error e => (.error e, w)
  | .ok logged =>
      let w1 := consoleLog logged w
      match resolveIdent scope "error" with
      | .error e => (.error e, w1)
      | .ok callee =>
          match callValue fns "error" callee [.num 404, .str "Not found"] w1 with
          | (.ok thrown, w2) => (.error thrown, w2)
          | (.error e, w2) => (.error e, w2)

/-- The exported `load`. -/
def load (fns : FunctionTable) (store : ContentStore) (kitError : JSValue)
    (event : LoadEvent) (w : World) : Option (Except JSValue JSValue) × World :=
  match tryBlock fns store event w with
  | (none, w1) => (none, w1)
  | (some (.ok result), w1) => (some (.ok result), w1)
  | (some (.error caught), w1) =>
      let handled := catchBlock fns kitError caught w1
      (some handled.1, handled.2)

/-- The value a `throw expr` statement ends with: the value of `expr`, or
what evaluating `expr` threw. -/
def thrownBy : Except JSValue JSValue → JSValue
  | .ok v => v
  | .error e => e

/-- The number that code outside the loader keeps in the cell `n`. -/
def counterOf (m : Memory) : Int :=
  match m.lookup "n" with
  | some (.num n) => n
  | _ => 0

/-! ## Concrete collaborators used to run the loader -/

/-- Modelled from the spec: the error helper of the framework, imported from
`@sveltejs/kit` (its code is not among the sources). Called with a status and
a message it produces the structured error `{ status, message }`. -/
def kitErrorHelper (args : List JSValue) : Except JSValue JSValue :=
  .ok (.object [("status", args.getD 0 .undefined), ("message", args.getD 1 .undefined)])

/-- The structured error of the spec: `{ status: 404, message: "Not found" }`. -/
def notFoundError : JSValue :=
  .object [("status", .num 404), ("message", .str "Not found")]

/-- The module that the `then` exports 4 and 6 hand to the promise: a post
with the given title, the date "1999-12-31" and the component `function 8`. -/
def otherPost (title : JSValue) : JSValue :=
  .object [("default", .function 8),
           ("metadata", .object [("title", title), ("date", .str "1999-12-31")])]

/-- A function table. Called: function 0 is the error helper of the framework,
functions 1 and 2 return a text that describes an internal failure, function 3
counts its calls in the cell `n` and returns the count, every other function
returns `undefined`. As the `then` of a thenable: function 4 fulfils the
promise with the post titled "Other", function 6 counts its calls in the cell
`n` and fulfils the promise with the post titled by the count, every other
function calls neither resolving function, so the promise is never settled. -/
def sampleFunctions : FunctionTable where
  call := fun id args m =>
    match id with
    | 0 => (kitErrorHelper args, m)
    | 1 => (.ok (.str "EACCES: permission denied, open /srv/blog/first.md"), m)
    | 2 => (.ok (.str "EIO: i/o error, read /srv/blog/second.md"), m)
    | 3 => (.ok (.num (counterOf m + 1)), ("n", .num (counterOf m + 1)) :: m)
    | _ => (.ok .undefined, m)
  settle := fun id _ m =>
    match id with
    | 4 => (some (.ok (otherPost (.str "Other"))), m)
    | 6 => (some (.ok (otherPost (.num (counterOf m + 1)))),
            ("n", .num (counterOf m + 1)) :: m)
    | _ => (none, m)

/-- The value bound to the imported name `error`: function 0. -/
def kitErrorValue : JSValue := .function 0

/-- A world in which nothing has happened yet. -/
def World.initial : World := { log := [], imports := [], calls := [], memory := [] }

/-- The rejection of an `import()` whose specifier matches no file. -/
def unknownImport (specifier : String) : JSValue :=
  .error "Error" ("Unknown variable dynamic import: " ++ specifier)

/-- A content store that holds the single post `hello-world.md`, with front
matter `title: "Hello"`, `date: "2021-01-01"`; its rendered body is the
component `function 7`. -/
def helloStore : ContentStore := fun specifier =>
  if specifier = "../hello-world.md" then
    .ok [("default", .function 7),
         ("metadata", .object [("title", .str "Hello"), ("date", .str "2021-01-01")])]
  else .error (unknownImport specifier)

/-- A content store with three posts whose front matter is incomplete:
`untitled.md` has a `date` only, `undated.md` a `title` only, `tagged.md`
neither of the two. -/
def sparseStore : ContentStore := fun specifier =>
  if specifier = "../untitled.md" then
    .ok [("default", .function 7), ("metadata", .object [("date", .str "2021-01-01")])]
  else if specifier = "../undated.md" then
    .ok [("default", .function 7), ("metadata", .object [("title", .str "Hello")])]
  else if specifier = "../tagged.md" then
    .ok [("default", .function 7), ("metadata", .object [("tags", .str "intro")])]
  else .error (unknownImport specifier)

/-- A content store whose single post `bare.md` has no front matter: the
module exports its rendered body and no `metadata`. -/
def bareStore : ContentStore := fun specifier =>
  if specifier = "../bare.md" then .ok [("default", .function 7)]
  else .error (unknownImport specifier)

/-- A content store like `helloStore` whose post carries more front matter
and one more export. -/
def helloStoreExtra : ContentStore := fun specifier =>
  if specifier = "../hello-world.md" then
    .ok [("default", .function 7),
         ("metadata", .object [("title", .str "Hello"), ("date", .str "2021-01-01"),
                               ("tags", .str "intro"), ("draft", .bool true)]),
         ("toc", .str "Hi")]
  else .error (unknownImport specifier)

/-- A content store like `helloStore` and `sparseStore` whose posts
`hello-world.md` and `untitled.md` export, next to their body and front
matter, the function object `id` under the name `then`. -/
def thenableStore (id : Nat) : ContentStore := fun specifier =>
  if specifier = "../hello-world.md" then
    .ok [("default", .function 7),
         ("metadata", .object [("title", .str "Hello"), ("date", .str "2021-01-01")]),
         ("then", .function id)]
  else if specifier = "../untitled.md" then
    .ok [("default", .function 7), ("metadata", .object [("date", .str "2021-01-01")]),
         ("then", .function id)]
  else .error (unknownImport specifier)

/-- A content store in which evaluating any module throws the function
object `id`. -/
def throwingStore (id : Nat) : ContentStore := fun _ => .error (.function id)

/-- A content store whose only document lies one directory above the posts,
under the specifier `../../secret.md`. -/
def secretStore : ContentStore := fun specifier =>
  if specifier = "../../secret.md" then
    .ok [("default", .function 9),
         ("metadata", .object [("title", .str "Secret"), ("date", .str "2020-02-02")])]
  else .error (unknownImport specifier)

/-! ## How the blocks of the loader evaluate -/

theorem resolvePromise_plain (fns : FunctionTable) (resolution : JSValue) (w : World)
    (h : (getProp resolution "then").isCallable = false) :
    resolvePromise fns resolution w = (some (.ok resolution), w) := by
  unfold resolvePromise
  cases hp : getProp resolution "then" <;> first | rfl | simp [hp, JSValue.isCallable] at h

theorem resolvePromise_frame (fns : FunctionTable) (resolution : JSValue) (w : World) :
    (resolvePromise fns resolution w).2.log = w.log
      ∧ (resolvePromise fns resolution w).2.imports = w.imports
      ∧ (resolvePromise fns resolution w).2.calls = w.calls := by
  unfold resolvePromise
  cases getProp resolution "then" <;> exact ⟨rfl, rfl, rfl⟩

theorem resolvePromise_memory (fns : FunctionTable) (resolution : JSValue) (w1 w2 : World)
    (h : w1.memory = w2.memory) :
    (resolvePromise fns resolution w1).1 = (resolvePromise fns resolution w2).1
      ∧ (resolvePromise fns resolution w1).2.memory
        = (resolvePromise fns resolution w2).2.memory := by
  unfold resolvePromise
  cases getProp resolution "then" <;> simp [h]

theorem dynamicImport_frame (fns : FunctionTable) (store : ContentStore)
    (specifier : String) (w : World) :
    (dynamicImport fns store specifier w).2.log = w.log
      ∧ (dynamicImport fns store specifier w).2.imports = w.imports ++ [specifier]
      ∧ (dynamicImport fns store specifier w).2.calls = w.calls := by
  unfold dynamicImport
  cases store specifier with
  | error e => exact ⟨rfl, rfl, rfl⟩
  | ok exports => exact resolvePromise_frame fns _ _

theorem dynamicImport_memory (fns : FunctionTable) (store : ContentStore)
    (specifier : String) (w1 w2 : World) (h : w1.memory = w2.memory) :
    (dynamicImport fns store specifier w1).1 = (dynamicImport fns store specifier w2).1
      ∧ (dynamicImport fns store specifier w1).2.memory
        = (dynamicImport fns store specifier w2).2.memory := by
  unfold dynamicImport
  cases store specifier with
  | error e => exact ⟨rfl, h⟩
  | ok exports => exact resolvePromise_memory fns _ _ _ h

theorem dynamicImport_rejected (fns : FunctionTable) (store : ContentStore)
    (specifier : String) (w : World) (e : JSValue) (h : store specifier = .error e) :
    dynamicImport fns store specifier w
      = (some (.error e), { w with imports := w.imports ++ [specifier] }) := by
  unfold dynamicImport
  rw [h]

theorem dynamicImport_plain (fns : FunctionTable) (store : ContentStore)
    (specifier : String) (w : World) (exports : List (String × JSValue))
    (h : store specifier = .ok exports)
    (hthen : (getProp (.object exports) "then").isCallable = false) :
    dynamicImport fns store specifier w
      = (some (.ok (.object exports)), { w with imports := w.imports ++ [specifier] }) := by
  unfold dynamicImport
  rw [h]
  exact resolvePromise_plain fns _ _ hthen

theorem tryBlock_snd (fns : FunctionTable) (store : ContentStore) (event : LoadEvent)
    (w : World) :
    (tryBlock fns store event w).2
      = (dynamicImport fns store (specifierOf event.params.slug) w).2 := by
  unfold tryBlock
  rcases dynamicImport fns store (specifierOf event.params.slug) w with ⟨o, w1⟩
  rcases o with _ | (e | post) <;> rfl

theorem tryBlock_fst (fns : FunctionTable) (store : ContentStore) (event : LoadEvent)
    (w : World) :
    (tryBlock fns store event w).1
      = match (dynamicImport fns store (specifierOf event.params.slug) w).1 with
        | none => none
        | some (.error e) => some (.error e)
        | some (.ok post) => some (buildResult post) := by
  unfold tryBlock
  rcases dynamicImport fns store (specifierOf event.params.slug) w with ⟨o, w1⟩
  rcases o with _ | (e | post) <;> rfl

theorem tryBlock_log (fns : FunctionTable) (store : ContentStore) (event : LoadEvent)
    (w : World) : (tryBlock fns store event w).2.log = w.log := by
  rw [tryBlock_snd]; exact (dynamicImport_frame _ _ _ _).1

theorem tryBlock_imports (fns : FunctionTable) (store : ContentStore) (event : LoadEvent)
    (w : World) :
    (tryBlock fns store event w).2.imports = w.imports ++ [specifierOf event.params.slug] := by
  rw [tryBlock_snd]; exact (dynamicImport_frame _ _ _ _).2.1

theorem tryBlock_calls (fns : FunctionTable) (store : ContentStore) (event : LoadEvent)
    (w : World) : (tryBlock fns store event w).2.calls = w.calls := by
  rw [tryBlock_snd]; exact (dynamicImport_frame _ _ _ _).2.2

theorem tryBlock_memory (fns : FunctionTable) (store : ContentStore) (event : LoadEvent)
    (w1 w2 : World) (h : w1.memory = w2.memory) :
    (tryBlock fns store event w1).1 = (tryBlock fns store event w2).1
      ∧ (tryBlock fns store event w1).2.memory = (tryBlock fns store event w2).2.memory := by
  have hd := dynamicImport_memory fns store (specifierOf event.params.slug) w1 w2 h
  refine ⟨?_, ?_⟩
  · rw [tryBlock_fst, tryBlock_fst, hd.1]
  · rw [tryBlock_snd, tryBlock_snd, hd.2]

theorem tryBlock_rejected (fns : FunctionTable) (store : ContentStore) (event : LoadEvent)
    (w : World) (e : JSValue) (h : store (specifierOf event.params.slug) = .error e) :
    tryBlock fns store event w
      = (some (.error e),
         { w with imports := w.imports ++ [specifierOf event.params.slug] }) := by
  unfold tryBlock
  rw [dynamicImport_rejected _ _ _ _ _ h]

theorem tryBlock_plain (fns : FunctionTable) (store : ContentStore) (event : LoadEvent)
    (w : World) (exports : List (String × JSValue))
    (h : store (specifierOf event.params.slug) = .ok exports)
    (hthen : (getProp (.object exports) "then").isCallable = false) :
    tryBlock fns store event w
      = (some (buildResult (.object exports)),
         { w with imports := w.imports ++ [specifierOf event.params.slug] }) := by
  unfold tryBlock
  rw [dynamicImport_plain _ _ _ _ _ h hthen]

theorem buildResult_of_metadata (post : JSValue) (hpost : post.isNullish = false)
    (hmeta : (getProp post "metadata").isNullish = false) :
    buildResult post =
      .ok (.object [("content", getProp post "default"),
                    ("title", getProp (getProp post "metadata") "title"),
                    ("date", getProp (getProp post "metadata") "date")]) := by
  simp [buildResult, readProperty, destructureTitleDate, hpost, hmeta]

theorem buildResult_of_nullish (post : JSValue) (hpost : post.isNullish = false)
    (hmeta : (getProp post "metadata").isNullish = true) :
    buildResult post =
      .error (typeError ("Cannot destructure property 'title' of 'post.metadata' as it is "
        ++ (getProp post "metadata").nullishName ++ ".")) := by
  simp [buildResult, readProperty, destructureTitleDate, hpost, hmeta]

theorem buildResult_shape (post r : JSValue) (h : buildResult post = .ok r) :
    r = .object [("content", getProp post "default"),
                 ("title", getProp (getProp post "metadata") "title"),
                 ("date", getProp (getProp post "metadata") "date")] := by
  cases hpost : post.isNullish with
  | true => simp [buildResult, readProperty, hpost] at h
  | false =>
      cases hmeta : (getProp post "metadata").isNullish with
      | true => rw [buildResult_of_nullish post hpost hmeta] at h; cases h
      | false =>
          rw [buildResult_of_metadata post hpost hmeta] at h
          exact (Except.ok.inj h).symm

theorem load_of_try_pending (fns : FunctionTable) (store : ContentStore)
    (kitError : JSValue) (event : LoadEvent) (w : World)
    (h : (tryBlock fns store event w).1 = none) :
    load fns store kitError event w = (none, (tryBlock fns store event w).2) := by
  unfold load
  rcases ht : tryBlock fns store event w with ⟨o, w1⟩
  rw [ht] at h
  simp only at h
  subst h
  rfl

theorem load_of_try_ok (fns : FunctionTable) (store : ContentStore) (kitError : JSValue)
    (event : LoadEvent) (w : World) (r : JSValue)
    (h : (tryBlock fns store event w).1 = some (.ok r)) :
    load fns store kitError event w = (some (.ok r), (tryBlock fns store event w).2) := by
  unfold load
  rcases ht : tryBlock fns store event w with ⟨o, w1⟩
  rw [ht] at h
  simp only at h
  subst h
  rfl

theorem load_of_try_error (fns : FunctionTable) (store : ContentStore) (kitError : JSValue)
    (event : LoadEvent) (w : World) (e : JSValue)
    (h : (tryBlock fns store event w).1 = some (.error e)) :
    load fns store kitError event w
      = (some (catchBlock fns kitError e (tryBlock fns store event w).2).1,
         (catchBlock fns kitError e (tryBlock fns store event w).2).2) := by
  unfold load
  rcases ht : tryBlock fns store event w with ⟨o, w1⟩
  rw [ht] at h
  simp only at h
  subst h
  rfl

theorem resolve_catch (kitError caught : JSValue) :
    resolveIdent (catchScope kitError caught) "error" = .ok caught := by
  simp [resolveIdent, catchScope, List.lookup]

theorem catchBlock_eq (fns : FunctionTable) (kitError caught : JSValue) (w : World) :
    catchBlock fns kitError caught w =
      match callValue fns "error" caught [.num 404, .str "Not found"] (consoleLog caught w) with
      | (.ok thrown, w2) => (.error thrown, w2)
      | (.error e, w2) => (.error e, w2) := by
  unfold catchBlock
  simp only [resolve_catch]

theorem catchBlock_function (fns : FunctionTable) (kitError : JSValue) (id : Nat)
    (w : World) :
    catchBlock fns kitError (.function id) w =
      (.error (thrownBy (fns.call id [.num 404, .str "Not found"] w.memory).1),
       { consoleLog (.function id) w with
         calls := w.calls ++ [(.function id, [.num 404, .str "Not found"])],
         memory := (fns.call id [.num 404, .str "Not found"] w.memory).2 }) := by
  rw [catchBlock_eq]
  simp only [callValue, consoleLog]
  rcases fns.call id [.num 404, .str "Not found"] w.memory with ⟨o, m⟩
  cases o <;> rfl

theorem catchBlock_not_callable (fns : FunctionTable) (kitError caught : JSValue)
    (w : World) (h : caught.isCallable = false) :
    catchBlock fns kitError caught w =
      (.error (typeError "error is not a function"), consoleLog caught w) := by
  rw [catchBlock_eq]
  cases caught <;> first | rfl | simp [JSValue.isCallable] at h

theorem catchBlock_fst_isError (fns : FunctionTable) (kitError caught : JSValue) (w : World) :
    ∃ x, (catchBlock fns kitError caught w).1 = .error x := by
  cases hc : caught.isCallable with
  | false => exact ⟨_, by rw [catchBlock_not_callable _ _ _ _ hc]⟩
  | true =>
      cases caught <;> simp [JSValue.isCallable] at hc
      exact ⟨_, by rw [catchBlock_function]⟩

theorem catchBlock_log (fns : FunctionTable) (kitError caught : JSValue) (w : World) :
    (catchBlock fns kitError caught w).2.log = w.log ++ [caught] := by
  cases hc : caught.isCallable with
  | false => rw [catchBlock_not_callable _ _ _ _ hc]; rfl
  | true =>
      cases caught <;> simp [JSValue.isCallable] at hc
      rw [catchBlock_function]; rfl

theorem catchBlock_imports (fns : FunctionTable) (kitError caught : JSValue) (w : World) :
    (catchBlock fns kitError caught w).2.imports = w.imports := by
  cases hc : caught.isCallable with
  | false => rw [catchBlock_not_callable _ _ _ _ hc]; rfl
  | true =>
      cases caught <;> simp [JSValue.isCallable] at hc
      rw [catchBlock_function]; rfl

theorem catchBlock_memory (fns : FunctionTable) (kitError1 kitError2 caught : JSValue)
    (w1 w2 : World) (h : w1.memory = w2.memory) :
    (catchBlock fns kitError1 caught w1).1 = (catchBlock fns kitError2 caught w2).1
      ∧ (catchBlock fns kitError1 caught w1).2.memory
        = (catchBlock fns kitError2 caught w2).2.memory := by
  cases hc : caught.isCallable with
  | false =>
      rw [catchBlock_not_callable _ _ _ _ hc, catchBlock_not_callable _ _ _ _ hc]
      exact ⟨rfl, h⟩
  | true =>
      cases caught <;> simp [JSValue.isCallable] at hc
      rw [catchBlock_function, catchBlock_function]
      simp [h]

theorem load_memory (fns : FunctionTable) (store : ContentStore) (kitError1 kitError2 : JSValue)
    (event : LoadEvent) (w1 w2 : World) (h : w1.memory = w2.memory) :
    (load fns store kitError1 event w1).1 = (load fns store kitError2 event w2).1
      ∧ (load fns store kitError1 event w1).2.memory
        = (load fns store kitError2 event w2).2.memory := by
  have ht := tryBlock_memory fns store event w1 w2 h
  rcases h1 : (tryBlock fns store event w1).1 with _ | (e | r)
  · have h2 : (tryBlock fns store event w2).1 = none := by rw [← ht.1, h1]
    rw [load_of_try_pending _ _ _ _ _ h1, load_of_try_pending _ _ _ _ _ h2]
    exact ⟨rfl, ht.2⟩
  · have h2 : (tryBlock fns store event w2).1 = some (.error e) := by rw [← ht.1, h1]
    rw [load_of_try_error _ _ _ _ _ _ h1, load_of_try_error _ _ _ _ _ _ h2]
    have hc := catchBlock_memory fns kitError1 kitError2 e _ _ ht.2
    exact ⟨by rw [hc.1], hc.2⟩
  · have h2 : (tryBlock fns store event w2).1 = some (.ok r) := by rw [← ht.1, h1]
    rw [load_of_try_ok _ _ _ _ _ _ h1, load_of_try_ok _ _ _ _ _ _ h2]
    exact ⟨rfl, ht.2⟩

theorem load_store_congr (fns : FunctionTable) (store1 store2 : ContentStore)
    (kitError : JSValue) (event : LoadEvent) (w : World)
    (h : store1 (specifierOf event.params.slug) = store2 (specifierOf event.params.slug)) :
    load fns store1 kitError event w = load fns store2 kitError event w := by
  unfold load tryBlock dynamicImport
  rw [h]

theorem buildResult_error_not_callable (post e : JSValue) (h : buildResult post = .error e) :
    e.isCallable = false := by
  cases hpost : post.isNullish with
  | true =>
      simp [buildResult, readProperty, hpost] at h
      rw [← h]; rfl
  | false =>
      cases hmeta : (getProp post "metadata").isNullish with
      | true =>
          rw [buildResult_of_nullish post hpost hmeta] at h
          rw [← Except.error.inj h]; rfl
      | false => rw [buildResult_of_metadata post hpost hmeta] at h; cases h

theorem load_plain (fns : FunctionTable) (store : ContentStore) (kitError : JSValue)
    (event : LoadEvent) (w : World) (exports : List (String × JSValue))
    (hstore : store (specifierOf event.params.slug) = .ok exports)
    (hthen : (getProp (.object exports) "then").isCallable = false)
    (hmeta : (getProp (.object exports) "metadata").isNullish = false) :
    (load fns store kitError event w).1 =
      some (.ok (.object [("content", getProp (.object exports) "default"),
        ("title", getProp (getProp (.object exports) "metadata") "title"),
        ("date", getProp (getProp (.object exports) "metadata") "date")])) := by
  have ht : (tryBlock fns store event w).1 = some (.ok (.object
      [("content", getProp (.object exports) "default"),
        ("title", getProp (getProp (.object exports) "metadata") "title"),
        ("date", getProp (getProp (.object exports) "metadata") "date")])) := by
    rw [tryBlock_plain _ _ _ _ _ hstore hthen,
      buildResult_of_metadata (.object exports) rfl hmeta]
  rw [load_of_try_ok _ _ _ _ _ _ ht]

/-- Without a callable `then` export and without a callable rejection of the
import, a run calls no function: it settles, it settles alike from every
state, and it leaves the memory as it was. -/
theorem load_without_calls (fns : FunctionTable) (store : ContentStore) (kitError : JSValue)
    (event : LoadEvent) (w : World)
    (hthen : ∀ exports, store (specifierOf event.params.slug) = .ok exports →
      (getProp (.object exports) "then").isCallable = false)
    (hreject : ∀ e, store (specifierOf event.params.slug) = .error e → e.isCallable = false) :
    (load fns store kitError event w).2.memory = w.memory
      ∧ (load fns store kitError event w).1 =
        match store (specifierOf event.params.slug) with
        | .error _ => some (.error (typeError "error is not a function"))
        | .ok exports =>
            match buildResult (.object exports) with
            | .ok r => some (.ok r)
            | .error _ => some (.error (typeError "error is not a function")) := by
  cases hs : store (specifierOf event.params.slug) with
  | error e =>
      have ht := tryBlock_rejected fns store event w e hs
      have h1 : (tryBlock fns store event w).1 = some (.error e) := by rw [ht]
      rw [load_of_try_error _ _ _ _ _ _ h1, catchBlock_not_callable _ _ _ _ (hreject e hs), ht]
      exact ⟨rfl, rfl⟩
  | ok exports =>
      have ht := tryBlock_plain fns store event w exports hs (hthen exports hs)
      cases hb : buildResult (.object exports) with
      | ok r =>
          have h1 : (tryBlock fns store event w).1 = some (.ok r) := by rw [ht, hb]
          rw [load_of_try_ok _ _ _ _ _ _ h1, ht]
          exact ⟨rfl, by simp only [hb]⟩
      | error e =>
          have h1 : (tryBlock fns store event w).1 = some (.error e) := by rw [ht, hb]
          rw [load_of_try_error _ _ _ _ _ _ h1,
            catchBlock_not_callable _ _ _ _ (buildResult_error_not_callable _ _ hb), ht]
          exact ⟨rfl, by simp only [hb]⟩

/-! ## The claims -/

/-- C1, the code run on a slug whose import fails: with `helloStore`, which
has no `missing-post.md`, `load` rejects with the `TypeError` "error is not a
function", a value without a `status`, and not with the structured error
`{ status: 404, message: "Not found" }` that the imported helper would have
produced. -/
theorem load_missing_post_rejects_with_typeError :
    (load sampleFunctions helloStore kitErrorValue ⟨⟨"missing-post"⟩⟩ World.initial).1
        = some (.error (typeError "error is not a function"))
      ∧ getProp (typeError "error is not a function") "status" = .undefined
      ∧ getProp notFoundError "status" = .num 404
      ∧ (load sampleFunctions helloStore kitErrorValue ⟨⟨"missing-post"⟩⟩ World.initial).1
        ≠ some (.error notFoundError)
      ∧ (sampleFunctions.call 0 [.num 404, .str "Not found"] []).1 = .ok notFoundError := by
  refine ⟨rfl, rfl, rfl, ?_, rfl⟩
  intro h
  have h2 : (some (Except.error (typeError "error is not a function")) :
      Option (Except JSValue JSValue)) = some (.error notFoundError) := h
  simp [typeError, notFoundError] at h2

/-- C2 as stated fails on a thenable module: the post `hello-world.md` of
`thenableStore 4` has the front matter "Hello", "2021-01-01" and exports a
function `then`; the awaited import follows that thenable, and `load` is
fulfilled with the fields of the post "Other" that `then` hands over, not with
those of the module. With the `then` of `thenableStore 5`, which calls neither
resolving function, `load` is never settled. -/
theorem load_thenable_post_returns_other_fields :
    thenableStore 4 ("../" ++ "hello-world" ++ ".md") =
        .ok [("default", .function 7),
             ("metadata", .object [("title", .str "Hello"), ("date", .str "2021-01-01")]),
             ("then", .function 4)]
      ∧ (load sampleFunctions (thenableStore 4) kitErrorValue ⟨⟨"hello-world"⟩⟩
          World.initial).1 =
        some (.ok (.object [("content", .function 8), ("title", .str "Other"),
                            ("date", .str "1999-12-31")]))
      ∧ (load sampleFunctions (thenableStore 4) kitErrorValue ⟨⟨"hello-world"⟩⟩
          World.initial).1 ≠
        some (.ok (.object [("content", .function 7), ("title", .str "Hello"),
                            ("date", .str "2021-01-01")]))
      ∧ (load sampleFunctions (thenableStore 5) kitErrorValue ⟨⟨"hello-world"⟩⟩
          World.initial).1 = none := by
  refine ⟨rfl, rfl, ?_, rfl⟩
  intro h
  have h2 : (some (Except.ok (.object [("content", .function 8), ("title", .str "Other"),
      ("date", .str "1999-12-31")])) : Option (Except JSValue JSValue)) =
      some (.ok (.object [("content", .function 7), ("title", .str "Hello"),
        ("date", .str "2021-01-01")])) := h
  simp at h2

/-- C2, amended: when the content store resolves the specifier of the slug to
a module whose `metadata` export is an object and which has no callable export
`then`, `load` is fulfilled with exactly the record `{ content, title, date }`
made of the module's default export and of the `title` and `date` of its
metadata. -/
theorem load_returns_post_fields (fns : FunctionTable) (store : ContentStore)
    (kitError : JSValue) (slug : String) (w : World)
    (exports md : List (String × JSValue))
    (hstore : store ("../" ++ slug ++ ".md") = .ok exports)
    (hmeta : getProp (.object exports) "metadata" = .object md)
    (hthen : (getProp (.object exports) "then").isCallable = false) :
    (load fns store kitError ⟨⟨slug⟩⟩ w).1 =
      some (.ok (.object [("content", getProp (.object exports) "default"),
                          ("title", getProp (.object md) "title"),
                          ("date", getProp (.object md) "date")])) := by
  have hnull : (getProp (.object exports) "metadata").isNullish = false := by
    rw [hmeta]; rfl
  have h := load_plain fns store kitError ⟨⟨slug⟩⟩ w exports hstore hthen hnull
  rw [hmeta] at h
  exact h

/-- C2 at the post `hello-world.md` with title "Hello" and date "2021-01-01". -/
theorem load_returns_post_fields_witness :
    helloStore ("../" ++ "hello-world" ++ ".md") =
        .ok [("default", .function 7),
             ("metadata", .object [("title", .str "Hello"), ("date", .str "2021-01-01")])]
      ∧ (load sampleFunctions helloStore kitErrorValue ⟨⟨"hello-world"⟩⟩ World.initial).1 =
        some (.ok (.object [("content", .function 7), ("title", .str "Hello"),
                            ("date", .str "2021-01-01")])) :=
  ⟨rfl, load_returns_post_fields sampleFunctions helloStore kitErrorValue "hello-world"
    World.initial _ [("title", .str "Hello"), ("date", .str "2021-01-01")] rfl rfl rfl⟩

/-- C3, the code run on two failures that differ: when the import is rejected
with the function object 1 in one run and with the function object 2 in the
other, the catch block calls the caught value, and the two values thrown to
the caller differ (each is what the caught function returned). -/
theorem load_thrown_value_depends_on_failure :
    (load sampleFunctions (throwingStore 1) kitErrorValue ⟨⟨"first"⟩⟩ World.initial).1
        = some (.error (.str "EACCES: permission denied, open /srv/blog/first.md"))
      ∧ (load sampleFunctions (throwingStore 2) kitErrorValue ⟨⟨"first"⟩⟩ World.initial).1
        = some (.error (.str "EIO: i/o error, read /srv/blog/second.md"))
      ∧ (load sampleFunctions (throwingStore 1) kitErrorValue ⟨⟨"first"⟩⟩ World.initial).1
        ≠ (load sampleFunctions (throwingStore 2) kitErrorValue ⟨⟨"first"⟩⟩ World.initial).1 := by
  refine ⟨rfl, rfl, ?_⟩
  intro h
  have h2 : (some (Except.error (.str "EACCES: permission denied, open /srv/blog/first.md")) :
      Option (Except JSValue JSValue))
      = some (.error (.str "EIO: i/o error, read /srv/blog/second.md")) := h
  simp at h2

/-- C4: `load` writes to the log exactly on failure. A run that is fulfilled
leaves the log as it was; a run that is rejected went through the catch block
with some caught value, and its log is the old one followed by exactly that
value; every failure of the `try` block gives such a run. A run that is never
settled leaves the log as it was, too. -/
theorem load_logs_exactly_on_failure (fns : FunctionTable) (store : ContentStore)
    (kitError : JSValue) (event : LoadEvent) (w : World) :
    (∀ r, (load fns store kitError event w).1 = some (.ok r) →
        (load fns store kitError event w).2.log = w.log)
      ∧ (∀ x, (load fns store kitError event w).1 = some (.error x) →
        ∃ caught, (tryBlock fns store event w).1 = some (.error caught)
          ∧ (load fns store kitError event w).2.log = w.log ++ [caught])
      ∧ (∀ caught, (tryBlock fns store event w).1 = some (.error caught) →
        (∃ x, (load fns store kitError event w).1 = some (.error x))
          ∧ (load fns store kitError event w).2.log = w.log ++ [caught])
      ∧ ((load fns store kitError event w).1 = none →
        (load fns store kitError event w).2.log = w.log) := by
  have hfail : ∀ caught, (tryBlock fns store event w).1 = some (.error caught) →
      (∃ x, (load fns store kitError event w).1 = some (.error x))
        ∧ (load fns store kitError event w).2.log = w.log ++ [caught] := by
    intro caught hc
    rw [load_of_try_error _ _ _ _ _ _ hc]
    obtain ⟨x, hx⟩ := catchBlock_fst_isError fns kitError caught (tryBlock fns store event w).2
    exact ⟨⟨x, by rw [hx]⟩, by rw [catchBlock_log, tryBlock_log]⟩
  refine ⟨?_, ?_, hfail, ?_⟩
  · intro r hr
    rcases ht : (tryBlock fns store event w).1 with _ | (caught | r2)
    · rw [load_of_try_pending _ _ _ _ _ ht, tryBlock_log]
    · obtain ⟨x, hx⟩ := (hfail caught ht).1
      rw [hx] at hr
      cases hr
    · rw [load_of_try_ok _ _ _ _ _ _ ht, tryBlock_log]
  · intro x hx
    rcases ht : (tryBlock fns store event w).1 with _ | (caught | r2)
    · rw [load_of_try_pending _ _ _ _ _ ht] at hx
      cases hx
    · exact ⟨caught, rfl, (hfail caught ht).2⟩
    · rw [load_of_try_ok _ _ _ _ _ _ ht] at hx
      cases hx
  · intro hn
    rcases ht : (tryBlock fns store event w).1 with _ | (caught | r2)
    · rw [load_of_try_pending _ _ _ _ _ ht, tryBlock_log]
    · obtain ⟨x, hx⟩ := (hfail caught ht).1
      rw [hx] at hn
      cases hn
    · rw [load_of_try_ok _ _ _ _ _ _ ht] at hn
      cases hn

/-- C4 at two runs: the post `hello-world.md` loads and the log stays empty;
`missing-post.md` does not, and the log holds the rejection of the import. -/
theorem load_logs_exactly_on_failure_witness :
    (load sampleFunctions helloStore kitErrorValue ⟨⟨"hello-world"⟩⟩ World.initial).2.log = []
      ∧ (load sampleFunctions helloStore kitErrorValue ⟨⟨"missing-post"⟩⟩ World.initial).2.log
        = [unknownImport "../missing-post.md"] := by
  refine ⟨?_, ?_⟩
  · exact (load_logs_exactly_on_failure sampleFunctions helloStore kitErrorValue
      ⟨⟨"hello-world"⟩⟩ World.initial).1 _ rfl
  · exact ((load_logs_exactly_on_failure sampleFunctions helloStore kitErrorValue
      ⟨⟨"missing-post"⟩⟩ World.initial).2.2.1 (unknownImport "../missing-post.md") rfl).2

/-- C5: whatever the slug, `load` asks the content store for exactly the
specifier `"../" ++ slug ++ ".md"`, and what the store answers there decides
the run. The trace of requests grows by that specifier alone; two stores that
answer alike under that specifier give the same run; a rejection by the store
under that specifier is the value the catch block logs; a module the store
holds under that specifier (with front matter, not a thenable) is the one
whose fields `load` returns. The slug is neither normalised nor refused: the
slug `../secret` is looked up as `../../secret.md`, and the document that
`secretStore` holds there is returned. -/
theorem load_requests_verbatim_specifier (fns : FunctionTable) (store : ContentStore)
    (kitError : JSValue) (slug : String) (w : World) :
    (load fns store kitError ⟨⟨slug⟩⟩ w).2.imports = w.imports ++ ["../" ++ slug ++ ".md"]
      ∧ (∀ store2 : ContentStore,
          store2 ("../" ++ slug ++ ".md") = store ("../" ++ slug ++ ".md") →
          load fns store2 kitError ⟨⟨slug⟩⟩ w = load fns store kitError ⟨⟨slug⟩⟩ w)
      ∧ (∀ e, store ("../" ++ slug ++ ".md") = .error e →
          (load fns store kitError ⟨⟨slug⟩⟩ w).2.log = w.log ++ [e])
      ∧ (∀ exports, store ("../" ++ slug ++ ".md") = .ok exports →
          (getProp (.object exports) "then").isCallable = false →
          (getProp (.object exports) "metadata").isNullish = false →
          (load fns store kitError ⟨⟨slug⟩⟩ w).1 =
            some (.ok (.object [("content", getProp (.object exports) "default"),
              ("title", getProp (getProp (.object exports) "metadata") "title"),
              ("date", getProp (getProp (.object exports) "metadata") "date")])))
      ∧ (load fns store kitError ⟨⟨"../secret"⟩⟩ w).2.imports
          = w.imports ++ ["../../secret.md"]
      ∧ (load fns secretStore kitError ⟨⟨"../secret"⟩⟩ w).1 =
          some (.ok (.object [("content", .function 9), ("title", .str "Secret"),
                              ("date", .str "2020-02-02")])) := by
  have key : ∀ s : String,
      (load fns store kitError ⟨⟨s⟩⟩ w).2.imports = w.imports ++ ["../" ++ s ++ ".md"] := by
    intro s
    rcases ht : (tryBlock fns store ⟨⟨s⟩⟩ w).1 with _ | (e | r)
    · rw [load_of_try_pending _ _ _ _ _ ht, tryBlock_imports]; rfl
    · rw [load_of_try_error _ _ _ _ _ _ ht, catchBlock_imports, tryBlock_imports]; rfl
    · rw [load_of_try_ok _ _ _ _ _ _ ht, tryBlock_imports]; rfl
  refine ⟨key slug, ?_, ?_, ?_, ?_, ?_⟩
  · intro store2 h
    exact load_store_congr fns store2 store kitError ⟨⟨slug⟩⟩ w h
  · intro e he
    have ht := tryBlock_rejected fns store ⟨⟨slug⟩⟩ w e he
    have h1 : (tryBlock fns store ⟨⟨slug⟩⟩ w).1 = some (.error e) := by rw [ht]
    rw [load_of_try_error _ _ _ _ _ _ h1, catchBlock_log, tryBlock_log]
  · intro exports hs hthen hmeta
    exact load_plain fns store kitError ⟨⟨slug⟩⟩ w exports hs hthen hmeta
  · have h := key "../secret"
    have hs : "../" ++ "../secret" ++ ".md" = "../../secret.md" := by decide
    rw [hs] at h
    exact h
  · exact load_plain fns secretStore kitError ⟨⟨"../secret"⟩⟩ w
      [("default", .function 9),
       ("metadata", .object [("title", .str "Secret"), ("date", .str "2020-02-02")])]
      rfl rfl rfl

/-- C5 at the slug `../secret`: `helloStore` rejects the specifier
`../../secret.md`, and that rejection is what the run logs; `secretStore`
holds a document there, and the run returns it. -/
theorem load_requests_verbatim_specifier_witness :
    helloStore ("../" ++ "../secret" ++ ".md") = .error (unknownImport "../../secret.md")
      ∧ (load sampleFunctions helloStore kitErrorValue ⟨⟨"../secret"⟩⟩ World.initial).2.imports
        = ["../../secret.md"]
      ∧ (load sampleFunctions helloStore kitErrorValue ⟨⟨"../secret"⟩⟩ World.initial).2.log
        = [unknownImport "../../secret.md"]
      ∧ (load sampleFunctions secretStore kitErrorValue ⟨⟨"../secret"⟩⟩ World.initial).1 =
          some (.ok (.object [("content", .function 9), ("title", .str "Secret"),
                              ("date", .str "2020-02-02")])) := by
  have h := load_requests_verbatim_specifier sampleFunctions helloStore kitErrorValue
    "../secret" World.initial
  exact ⟨rfl, h.2.2.2.2.1, h.2.2.1 (unknownImport "../../secret.md") rfl, h.2.2.2.2.2⟩

/-- C6 as stated fails on two documents that load and lack a field. The post
`bare.md` has no front matter at all: its module lacks `title` and `date`, and
`load` does not succeed but is rejected. The post `untitled.md` of
`thenableStore 4` has a front matter without `title` and exports a function
`then`: `load` is fulfilled with the title "Other", not with `undefined`. -/
theorem load_absent_fields_not_always_passed_through :
    bareStore ("../" ++ "bare" ++ ".md") = .ok [("default", .function 7)]
      ∧ getProp (getProp (.object [("default", .function 7)]) "metadata") "title" = .undefined
      ∧ getProp (getProp (.object [("default", .function 7)]) "metadata") "date" = .undefined
      ∧ (load sampleFunctions bareStore kitErrorValue ⟨⟨"bare"⟩⟩ World.initial).1
        = some (.error (typeError "error is not a function"))
      ∧ thenableStore 4 ("../" ++ "untitled" ++ ".md") =
        .ok [("default", .function 7), ("metadata", .object [("date", .str "2021-01-01")]),
             ("then", .function 4)]
      ∧ (load sampleFunctions (thenableStore 4) kitErrorValue ⟨⟨"untitled"⟩⟩ World.initial).1
        = some (.ok (.object [("content", .function 8), ("title", .str "Other"),
                              ("date", .str "1999-12-31")])) :=
  ⟨rfl, rfl, rfl, rfl, rfl, rfl⟩

/-- C6, amended: when the document loads with a front matter (the module has a
`metadata` object and no callable export `then`) that lacks `title` or `date`,
`load` is still fulfilled, with a record of the three fields in which each
field the front matter lacks is `undefined` and each field it has is passed
through; nothing is substituted. -/
theorem load_passes_absent_fields_through (fns : FunctionTable) (store : ContentStore)
    (kitError : JSValue) (slug : String) (w : World)
    (exports md : List (String × JSValue))
    (hstore : store ("../" ++ slug ++ ".md") = .ok exports)
    (hmeta : getProp (.object exports) "metadata" = .object md)
    (hthen : (getProp (.object exports) "then").isCallable = false) :
    ∃ title date,
      (load fns store kitError ⟨⟨slug⟩⟩ w).1 =
          some (.ok (.object [("content", getProp (.object exports) "default"),
                              ("title", title), ("date", date)]))
        ∧ (md.lookup "title" = none → title = .undefined)
        ∧ (md.lookup "date" = none → date = .undefined)
        ∧ (∀ v, md.lookup "title" = some v → title = v)
        ∧ (∀ v, md.lookup "date" = some v → date = v) := by
  have hnull : (getProp (.object exports) "metadata").isNullish = false := by
    rw [hmeta]; rfl
  have h := load_plain fns store kitError ⟨⟨slug⟩⟩ w exports hstore hthen hnull
  rw [hmeta] at h
  refine ⟨getProp (.object md) "title", getProp (.object md) "date", h, ?_, ?_, ?_, ?_⟩
  · intro h; simp [getProp, h]
  · intro h; simp [getProp, h]
  · intro v h; simp [getProp, h]
  · intro v h; simp [getProp, h]

/-- C6 at the three posts of `sparseStore`: `untitled.md` lacks the title,
`undated.md` the date, `tagged.md` both. -/
theorem load_passes_absent_fields_through_witness :
    (load sampleFunctions sparseStore kitErrorValue ⟨⟨"untitled"⟩⟩ World.initial).1 =
        some (.ok (.object [("content", .function 7), ("title", .undefined),
                            ("date", .str "2021-01-01")]))
      ∧ (load sampleFunctions sparseStore kitErrorValue ⟨⟨"undated"⟩⟩ World.initial).1 =
        some (.ok (.object [("content", .function 7), ("title", .str "Hello"),
                            ("date", .undefined)]))
      ∧ (load sampleFunctions sparseStore kitErrorValue ⟨⟨"tagged"⟩⟩ World.initial).1 =
        some (.ok (.object [("content", .function 7), ("title", .undefined),
                            ("date", .undefined)])) := by
  refine ⟨?_, ?_, ?_⟩
  · obtain ⟨title, date, hload, htitle, _, _, hdate⟩ :=
      load_passes_absent_fields_through sampleFunctions sparseStore kitErrorValue "untitled"
        World.initial
        [("default", .function 7), ("metadata", .object [("date", .str "2021-01-01")])]
        [("date", .str "2021-01-01")] rfl rfl rfl
    rw [hload, htitle rfl, hdate _ rfl]
    rfl
  · obtain ⟨title, date, hload, _, hdate, htitle, _⟩ :=
      load_passes_absent_fields_through sampleFunctions sparseStore kitErrorValue "undated"
        World.initial
        [("default", .function 7), ("metadata", .object [("title", .str "Hello")])]
        [("title", .str "Hello")] rfl rfl rfl
    rw [hload, htitle _ rfl, hdate rfl]
    rfl
  · obtain ⟨title, date, hload, htitle, hdate, _, _⟩ :=
      load_passes_absent_fields_through sampleFunctions sparseStore kitErrorValue "tagged"
        World.initial
        [("default", .function 7), ("metadata", .object [("tags", .str "intro")])]
        [("tags", .str "intro")] rfl rfl rfl
    rw [hload, htitle rfl, hdate rfl]
    rfl

/-- C7 as stated fails when a run calls a function object that keeps state.
With `throwingStore 3` the import is rejected with a function that counts its
calls, the catch block calls it, and a first call of `load` rejects with 1, a
call made after it with 2. With `thenableStore 6` the `then` export counts its
calls, and a first call returns the title 1, a call made after it the title
2. The content store and the slug are the same in both calls. -/
theorem load_repeated_call_settles_differently :
    (load sampleFunctions (throwingStore 3) kitErrorValue ⟨⟨"first"⟩⟩ World.initial).1
        = some (.error (.num 1))
      ∧ (load sampleFunctions (throwingStore 3) kitErrorValue ⟨⟨"first"⟩⟩
          (load sampleFunctions (throwingStore 3) kitErrorValue ⟨⟨"first"⟩⟩
            World.initial).2).1
        = some (.error (.num 2))
      ∧ (load sampleFunctions (thenableStore 6) kitErrorValue ⟨⟨"hello-world"⟩⟩
          World.initial).1
        = some (.ok (.object [("content", .function 8), ("title", .num 1),
                              ("date", .str "1999-12-31")]))
      ∧ (load sampleFunctions (thenableStore 6) kitErrorValue ⟨⟨"hello-world"⟩⟩
          (load sampleFunctions (thenableStore 6) kitErrorValue ⟨⟨"hello-world"⟩⟩
            World.initial).2).1
        = some (.ok (.object [("content", .function 8), ("title", .num 2),
                              ("date", .str "1999-12-31")]))
      ∧ (load sampleFunctions (throwingStore 3) kitErrorValue ⟨⟨"first"⟩⟩
          (load sampleFunctions (throwingStore 3) kitErrorValue ⟨⟨"first"⟩⟩
            World.initial).2).1
        ≠ (load sampleFunctions (throwingStore 3) kitErrorValue ⟨⟨"first"⟩⟩ World.initial).1 := by
  refine ⟨rfl, rfl, rfl, rfl, ?_⟩
  intro h
  have h2 : (some (Except.error (.num 2)) : Option (Except JSValue JSValue))
      = some (.error (.num 1)) := h
  simp at h2

/-- C7, amended: for a slug and a content store under which the run calls no
function object (the store neither rejects the import with a callable value
nor resolves it to a module with a callable export `then`), `load` is
deterministic. It settles, and in the same way from any two states, whatever
their log, traces and memory; it leaves the memory as it was; and a call made
after another call settles as the first one did. -/
theorem load_deterministic (fns : FunctionTable) (store : ContentStore)
    (kitError : JSValue) (event : LoadEvent) (w1 w2 : World)
    (hthen : ∀ exports, store ("../" ++ event.params.slug ++ ".md") = .ok exports →
      (getProp (.object exports) "then").isCallable = false)
    (hreject : ∀ e, store ("../" ++ event.params.slug ++ ".md") = .error e →
      e.isCallable = false) :
    (load fns store kitError event w1).1 = (load fns store kitError event w2).1
      ∧ (load fns store kitError event w1).1 ≠ none
      ∧ (load fns store kitError event w1).2.memory = w1.memory
      ∧ (load fns store kitError event (load fns store kitError event w1).2).1
        = (load fns store kitError event w1).1 := by
  have h := fun w => load_without_calls fns store kitError event w hthen hreject
  refine ⟨?_, ?_, (h w1).1, ?_⟩
  · rw [(h w1).2, (h w2).2]
  · rw [(h w1).2]
    cases store (specifierOf event.params.slug) with
    | error e => simp
    | ok exports =>
        dsimp only
        cases buildResult (.object exports) <;> simp
  · rw [(h _).2, (h w1).2]

/-- C7 at `helloStore`: the slug `missing-post`, whose import is rejected with
an `Error` instance, run from the initial state and from the state that a
first run leaves. -/
theorem load_deterministic_witness :
    (load sampleFunctions helloStore kitErrorValue ⟨⟨"missing-post"⟩⟩ World.initial).1
        = some (.error (typeError "error is not a function"))
      ∧ (load sampleFunctions helloStore kitErrorValue ⟨⟨"missing-post"⟩⟩
          (load sampleFunctions helloStore kitErrorValue ⟨⟨"missing-post"⟩⟩
            World.initial).2).1
        = (load sampleFunctions helloStore kitErrorValue ⟨⟨"missing-post"⟩⟩ World.initial).1
      ∧ (load sampleFunctions helloStore kitErrorValue ⟨⟨"missing-post"⟩⟩
          World.initial).2.memory = [] := by
  have h := load_deterministic sampleFunctions helloStore kitErrorValue ⟨⟨"missing-post"⟩⟩
    World.initial World.initial
    (by
      intro exports hs
      have h2 : (Except.error (unknownImport "../missing-post.md") :
          Except JSValue (List (String × JSValue))) = .ok exports := hs
      cases h2)
    (by
      intro e hs
      have h2 : (Except.error (unknownImport "../missing-post.md") :
          Except JSValue (List (String × JSValue))) = .error e := hs
      rw [← Except.error.inj h2]
      rfl)
  exact ⟨rfl, h.2.2.2, h.2.2.1⟩

/-- C8, the code run on a document without front matter: the module of
`bare.md` exports no `metadata`, the destructuring throws inside the `try`
block and the catch block is entered (the log holds that `TypeError`), but
`load` then rejects with the `TypeError` "error is not a function", which has
no `status`, and not with the structured error of status 404. -/
theorem load_bare_post_rejects_with_typeError :
    (tryBlock sampleFunctions bareStore ⟨⟨"bare"⟩⟩ World.initial).1
        = some (.error (typeError
            "Cannot destructure property 'title' of 'post.metadata' as it is undefined."))
      ∧ (load sampleFunctions bareStore kitErrorValue ⟨⟨"bare"⟩⟩ World.initial).2.log
        = [typeError
            "Cannot destructure property 'title' of 'post.metadata' as it is undefined."]
      ∧ (load sampleFunctions bareStore kitErrorValue ⟨⟨"bare"⟩⟩ World.initial).1
        = some (.error (typeError "error is not a function"))
      ∧ getProp (typeError "error is not a function") "status" ≠ .num 404
      ∧ (load sampleFunctions bareStore kitErrorValue ⟨⟨"bare"⟩⟩ World.initial).1
        ≠ some (.error notFoundError) := by
  refine ⟨rfl, rfl, rfl, ?_, ?_⟩
  · intro h
    have h2 : JSValue.undefined = .num 404 := h
    cases h2
  · intro h
    have h2 : (some (Except.error (typeError "error is not a function")) :
        Option (Except JSValue JSValue)) = some (.error notFoundError) := h
    simp [typeError, notFoundError] at h2

/-- C9: in the catch block the identifier `error` resolves to the caught value
and not to the imported helper. So in every failing run whose caught value is
not a function, the call `error(404, 'Not found')` itself fails: `load` rejects
with a `TypeError`, a value without a `status`, and no call expression calls a
function, the imported helper included (whatever value the import binds). -/
theorem load_catch_parameter_shadows_helper (fns : FunctionTable) (store : ContentStore)
    (kitError : JSValue) (event : LoadEvent) (w : World) (caught : JSValue)
    (hcaught : (tryBlock fns store event w).1 = some (.error caught))
    (hfun : caught.isCallable = false) :
    resolveIdent (catchScope kitError caught) "error" = .ok caught
      ∧ resolveIdent (moduleScope kitError) "error" = .ok kitError
      ∧ (load fns store kitError event w).1
        = some (.error (typeError "error is not a function"))
      ∧ getProp (typeError "error is not a function") "name" = .str "TypeError"
      ∧ getProp (typeError "error is not a function") "status" = .undefined
      ∧ (load fns store kitError event w).2.calls = w.calls := by
  refine ⟨resolve_catch _ _, by simp [resolveIdent, moduleScope, List.lookup], ?_, rfl, rfl, ?_⟩
  · rw [load_of_try_error _ _ _ _ _ _ hcaught, catchBlock_not_callable _ _ _ _ hfun]
  · rw [load_of_try_error _ _ _ _ _ _ hcaught, catchBlock_not_callable _ _ _ _ hfun]
    simp only [consoleLog]
    exact tryBlock_calls _ _ _ _

/-- C9 at the slug `missing-post`: the caught value is the rejection of the
import, an `Error` instance, and no call is recorded. -/
theorem load_catch_parameter_shadows_helper_witness :
    (tryBlock sampleFunctions helloStore ⟨⟨"missing-post"⟩⟩ World.initial).1
        = some (.error (unknownImport "../missing-post.md"))
      ∧ (unknownImport "../missing-post.md").isCallable = false
      ∧ (load sampleFunctions helloStore kitErrorValue ⟨⟨"missing-post"⟩⟩ World.initial).1
        = some (.error (typeError "error is not a function"))
      ∧ (load sampleFunctions helloStore kitErrorValue ⟨⟨"missing-post"⟩⟩ World.initial).2.calls
        = [] :=
  have h := load_catch_parameter_shadows_helper sampleFunctions helloStore kitErrorValue
    ⟨⟨"missing-post"⟩⟩ World.initial (unknownImport "../missing-post.md") rfl rfl
  ⟨rfl, rfl, h.2.2.1, h.2.2.2.2.2⟩

/-- C10 as stated fails on an export named `then`: the posts `hello-world.md`
of `helloStore` and of `thenableStore 4` agree on the default export and on
the `title` and `date` of their metadata and differ in one other export, the
function `then`; both runs are fulfilled, with different records. -/
theorem load_result_depends_on_then_export :
    getProp (.object [("default", .function 7),
          ("metadata", .object [("title", .str "Hello"), ("date", .str "2021-01-01")]),
          ("then", .function 4)]) "default"
        = getProp (.object [("default", .function 7),
          ("metadata", .object [("title", .str "Hello"), ("date", .str "2021-01-01")])])
          "default"
      ∧ getProp (.object [("default", .function 7),
          ("metadata", .object [("title", .str "Hello"), ("date", .str "2021-01-01")]),
          ("then", .function 4)]) "metadata"
        = getProp (.object [("default", .function 7),
          ("metadata", .object [("title", .str "Hello"), ("date", .str "2021-01-01")])])
          "metadata"
      ∧ helloStore "../hello-world.md" =
        .ok [("default", .function 7),
             ("metadata", .object [("title", .str "Hello"), ("date", .str "2021-01-01")])]
      ∧ thenableStore 4 "../hello-world.md" =
        .ok [("default", .function 7),
             ("metadata", .object [("title", .str "Hello"), ("date", .str "2021-01-01")]),
             ("then", .function 4)]
      ∧ (load sampleFunctions helloStore kitErrorValue ⟨⟨"hello-world"⟩⟩ World.initial).1 =
        some (.ok (.object [("content", .function 7), ("title", .str "Hello"),
                            ("date", .str "2021-01-01")]))
      ∧ (load sampleFunctions (thenableStore 4) kitErrorValue ⟨⟨"hello-world"⟩⟩
          World.initial).1 =
        some (.ok (.object [("content", .function 8), ("title", .str "Other"),
                            ("date", .str "1999-12-31")]))
      ∧ (load sampleFunctions helloStore kitErrorValue ⟨⟨"hello-world"⟩⟩ World.initial).1
        ≠ (load sampleFunctions (thenableStore 4) kitErrorValue ⟨⟨"hello-world"⟩⟩
          World.initial).1 := by
  refine ⟨rfl, rfl, rfl, rfl, rfl, rfl, ?_⟩
  intro h
  have h2 : (some (Except.ok (.object [("content", .function 7), ("title", .str "Hello"),
      ("date", .str "2021-01-01")])) : Option (Except JSValue JSValue)) =
      some (.ok (.object [("content", .function 8), ("title", .str "Other"),
        ("date", .str "1999-12-31")])) := h
  simp at h2

/-- C10, amended: a record `load` is fulfilled with has exactly the fields
`content`, `title` and `date`, in this order, and for modules without a
callable export `then` it depends only on the default export of the module
and on the `title` and `date` of its metadata: two such modules that agree on
these three values give equal records, whatever else they export or carry in
their metadata. -/
theorem load_result_depends_on_three_values (fns1 fns2 : FunctionTable)
    (store1 store2 : ContentStore) (kitError1 kitError2 : JSValue) (slug1 slug2 : String)
    (w1 w2 : World) (exports1 exports2 : List (String × JSValue)) (r1 r2 : JSValue)
    (hstore1 : store1 ("../" ++ slug1 ++ ".md") = .ok exports1)
    (hstore2 : store2 ("../" ++ slug2 ++ ".md") = .ok exports2)
    (hthen1 : (getProp (.object exports1) "then").isCallable = false)
    (hthen2 : (getProp (.object exports2) "then").isCallable = false)
    (hr1 : (load fns1 store1 kitError1 ⟨⟨slug1⟩⟩ w1).1 = some (.ok r1))
    (hr2 : (load fns2 store2 kitError2 ⟨⟨slug2⟩⟩ w2).1 = some (.ok r2))
    (hcontent : getProp (.object exports1) "default" = getProp (.object exports2) "default")
    (htitle : getProp (getProp (.object exports1) "metadata") "title"
      = getProp (getProp (.object exports2) "metadata") "title")
    (hdate : getProp (getProp (.object exports1) "metadata") "date"
      = getProp (getProp (.object exports2) "metadata") "date") :
    r1 = r2 ∧ ownKeys r1 = ["content", "title", "date"] := by
  have shape : ∀ (fns : FunctionTable) (store : ContentStore) (kitError : JSValue)
      (slug : String) (w : World) (exports : List (String × JSValue)) (r : JSValue),
      store ("../" ++ slug ++ ".md") = .ok exports →
      (getProp (.object exports) "then").isCallable = false →
      (load fns store kitError ⟨⟨slug⟩⟩ w).1 = some (.ok r) →
      r = .object [("content", getProp (.object exports) "default"),
                   ("title", getProp (getProp (.object exports) "metadata") "title"),
                   ("date", getProp (getProp (.object exports) "metadata") "date")] := by
    intro fns store kitError slug w exports r hstore hthen hr
    have ht := tryBlock_plain fns store ⟨⟨slug⟩⟩ w exports hstore hthen
    cases hb : buildResult (.object exports) with
    | ok r0 =>
        have h1 : (tryBlock fns store ⟨⟨slug⟩⟩ w).1 = some (.ok r0) := by rw [ht, hb]
        rw [load_of_try_ok _ _ _ _ _ _ h1] at hr
        have hEq : r0 = r := Except.ok.inj (Option.some.inj hr)
        rw [← hEq]
        exact buildResult_shape _ _ hb
    | error e =>
        have h1 : (tryBlock fns store ⟨⟨slug⟩⟩ w).1 = some (.error e) := by rw [ht, hb]
        rw [load_of_try_error _ _ _ _ _ _ h1] at hr
        obtain ⟨x, hx⟩ := catchBlock_fst_isError fns kitError e (tryBlock fns store ⟨⟨slug⟩⟩ w).2
        rw [hx] at hr
        cases hr
  have e1 := shape fns1 store1 kitError1 slug1 w1 exports1 r1 hstore1 hthen1 hr1
  have e2 := shape fns2 store2 kitError2 slug2 w2 exports2 r2 hstore2 hthen2 hr2
  refine ⟨?_, ?_⟩
  · rw [e1, e2, hcontent, htitle, hdate]
  · rw [e1]; rfl

/-- C10 at `helloStore` and `helloStoreExtra`: the second post has two more
front matter fields and one more export, and the two records are equal. -/
theorem load_result_depends_on_three_values_witness :
    helloStore "../hello-world.md" ≠ helloStoreExtra "../hello-world.md"
      ∧ (load sampleFunctions helloStore kitErrorValue ⟨⟨"hello-world"⟩⟩ World.initial).1
        = (load sampleFunctions helloStoreExtra kitErrorValue ⟨⟨"hello-world"⟩⟩
            World.initial).1
      ∧ ownKeys (.object [("content", .function 7), ("title", .str "Hello"),
          ("date", .str "2021-01-01")]) = ["content", "title", "date"] := by
  have h := load_result_depends_on_three_values sampleFunctions sampleFunctions helloStore
    helloStoreExtra kitErrorValue kitErrorValue "hello-world" "hello-world" World.initial
    World.initial _ _
    (.object [("content", .function 7), ("title", .str "Hello"), ("date", .str "2021-01-01")])
    (.object [("content", .function 7), ("title", .str "Hello"), ("date", .str "2021-01-01")])
    (show helloStore ("../" ++ "hello-world" ++ ".md") = .ok _ from rfl)
    (show helloStoreExtra ("../" ++ "hello-world" ++ ".md") = .ok _ from rfl)
    rfl rfl rfl rfl rfl rfl rfl
  refine ⟨?_, rfl, h.2⟩
  intro hEq
  have h2 : (Except.ok [("default", JSValue.function 7),
         ("metadata", .object [("title", .str "Hello"), ("date", .str "2021-01-01")])] :
         Except JSValue (List (String × JSValue))) =
      .ok [("default", .function 7),
         ("metadata", .object [("title", .str "Hello"), ("date", .str "2021-01-01"),
                               ("tags", .str "intro"), ("draft", .bool true)]),
         ("toc", .str "Hi")] := hEq
  simp at h2

end BlogSlug
